import Mathlib

/-!
Shallow embedding of the hi-poc balance system (TypeScript sources) for
checking its natural-language specification.

Monetary amounts are `decimal.js` exact decimals in the source; they are
modelled as `ℤ` (only addition, subtraction and order comparisons occur).
Wall-clock timestamps (`updatedAt`, `NOW()`) are modelled as integers where
they matter (lease expiry) and omitted where they are write-only metadata.
-/

namespace BalanceSystem

/-- Transaction kinds, from src/types/index.ts `TransactionType`. -/
inductive TransactionType where
  | DEPOSIT
  | WITHDRAW
  | FREEZE
  | UNFREEZE
  | TRANSFER
deriving Repr, DecidableEq

/-- Ledger states, from src/types/index.ts `TransactionStatus`. -/
inductive TransactionStatus where
  | INIT
  | PROCESSING
  | SUCCESS
  | FAILED
deriving Repr, DecidableEq

/-- A balance, from src/types/index.ts `Balance` (the `updatedAt` wall-clock
field is omitted). -/
structure Balance where
  accountId : Nat
  currencyCode : String
  available : ℤ
  frozen : ℤ
  version : Nat
deriving Repr, DecidableEq

/-- A mutation request, from src/types/index.ts `BalanceChangeRequest`
(the optional `description`/`metadata` payload fields are omitted). -/
structure BalanceChangeRequest where
  transactionId : String
  accountId : Nat
  userId : String
  currencyCode : String
  type : TransactionType
  amount : ℤ
deriving Repr, DecidableEq

/-- A `balance_transactions` row, as inserted by
`BalanceService.recordTransaction` (src/services/balance.ts) and by the
bulk ledger insert of `MySQLBatchWriter.batchWriteBalanceUpdates`. -/
structure LedgerRow where
  accountId : Nat
  currencyCode : String
  transactionId : String
  type : TransactionType
  amount : ℤ
  availableBefore : ℤ
  availableAfter : ℤ
  frozenBefore : ℤ
  frozenAfter : ℤ
  status : TransactionStatus
  errorMessage : Option String
deriving Repr, DecidableEq

/-- `BalanceCache.update` from src/cache/memory.ts: apply the deltas to the
cached entry, rejecting (the source throws) when the entry is missing or a
new component would be negative; on success the version is incremented. -/
def cacheUpdate (entry : Option Balance) (availableDelta frozenDelta : ℤ) :
    Except String Balance :=
  match entry with
  | none => Except.error "Balance not found in cache"
  | some current =>
      let newAvailable := current.available + availableDelta
      let newFrozen := current.frozen + frozenDelta
      if newAvailable < 0 then Except.error "Insufficient balance"
      else if newFrozen < 0 then Except.error "Insufficient frozen balance"
      else Except.ok { current with
                        available := newAvailable,
                        frozen := newFrozen,
                        version := current.version + 1 }

/-- The `switch (request.type)` of `BalanceService.updateBalance`
(src/services/balance.ts, step 3): compute the after-state, throwing on an
insufficient balance; `TRANSFER` hits the `default` branch and throws. -/
def computeNewBalance (type : TransactionType)
    (availableBefore frozenBefore amount : ℤ) : Except String (ℤ × ℤ) :=
  match type with
  | TransactionType.DEPOSIT => Except.ok (availableBefore + amount, frozenBefore)
  | TransactionType.WITHDRAW =>
      let availableAfter := availableBefore - amount
      if availableAfter < 0 then Except.error "Insufficient balance"
      else Except.ok (availableAfter, frozenBefore)
  | TransactionType.FREEZE =>
      let availableAfter := availableBefore - amount
      if availableAfter < 0 then Except.error "Insufficient balance to freeze"
      else Except.ok (availableAfter, frozenBefore + amount)
  | TransactionType.UNFREEZE =>
      let frozenAfter := frozenBefore - amount
      if frozenAfter < 0 then Except.error "Insufficient frozen balance"
      else Except.ok (availableBefore + amount, frozenAfter)
  | TransactionType.TRANSFER => Except.error "Unknown transaction type"

/-- The ledger row written by `BalanceService.recordTransaction`. -/
def mkLedgerRow (req : BalanceChangeRequest)
    (availableBefore availableAfter frozenBefore frozenAfter : ℤ)
    (status : TransactionStatus) (errorMessage : Option String) : LedgerRow :=
  { accountId := req.accountId
    currencyCode := req.currencyCode
    transactionId := req.transactionId
    type := req.type
    amount := req.amount
    availableBefore := availableBefore
    availableAfter := availableAfter
    frozenBefore := frozenBefore
    frozenAfter := frozenAfter
    status := status
    errorMessage := errorMessage }

/-- Outcome of one `BalanceService.updateBalance` call.  `thrown` models an
exception propagating to the caller (the consumer); `cacheAfter` is the
in-memory cache entry for the (account, currency) after the call, and
`ledger` is the row passed to `recordTransaction`. -/
inductive UpdateOutcome where
  | thrown (msg : String) (cacheAfter : Option Balance)
  | returned (success : Bool)
      (availableBefore availableAfter frozenBefore frozenAfter : ℤ)
      (errorMessage : Option String) (cacheAfter : Balance) (ledger : LedgerRow)
deriving Repr, DecidableEq

/-- Body of `BalanceService.updateBalance` once a current balance exists in
the cache (src/services/balance.ts, steps 3-5).  The `switch` throws are
raised before the `try` block, so they propagate; errors thrown by
`cache.update` inside the `try` are caught and converted into a
`success := false` result whose before/after snapshots are equal. -/
def updateBalanceOn (current : Balance) (req : BalanceChangeRequest) :
    UpdateOutcome :=
  match computeNewBalance req.type current.available current.frozen req.amount with
  | Except.error msg => UpdateOutcome.thrown msg (some current)
  | Except.ok (availableAfter, frozenAfter) =>
      match cacheUpdate (some current) (availableAfter - current.available)
          (frozenAfter - current.frozen) with
      | Except.ok updated =>
          UpdateOutcome.returned true current.available availableAfter
            current.frozen frozenAfter none updated
            (mkLedgerRow req current.available availableAfter current.frozen
              frozenAfter TransactionStatus.SUCCESS none)
      | Except.error msg =>
          UpdateOutcome.returned false current.available current.available
            current.frozen current.frozen (some msg) current
            (mkLedgerRow req current.available current.available current.frozen
              current.frozen TransactionStatus.FAILED (some msg))

/-- `BalanceService.updateBalance` (src/services/balance.ts): load the
current balance (the DB row and the cache entry coincide after
`loadBalanceFromDB`); on a miss, lazily create a zero balance when the
request is a `DEPOSIT` with `amount.gte(0)`, otherwise throw. -/
def updateBalance (cacheEntry : Option Balance) (req : BalanceChangeRequest) :
    UpdateOutcome :=
  match cacheEntry with
  | some current => updateBalanceOn current req
  | none =>
      if req.type = TransactionType.DEPOSIT ∧ 0 ≤ req.amount then
        updateBalanceOn
          { accountId := req.accountId, currencyCode := req.currencyCode,
            available := 0, frozen := 0, version := 0 } req
      else UpdateOutcome.thrown "Balance not found" none

/-- One row of the `temp_balance_updates` staging table built by
`MySQLBatchWriter.batchWriteBalanceUpdates` (src, step 2/3): the deltas are
`after - before`, the rest echoes the update entry. -/
structure TempRow where
  accountId : Nat
  currencyCode : String
  availableDelta : ℤ
  frozenDelta : ℤ
  transactionId : String
  type : TransactionType
  amount : ℤ
  availableBefore : ℤ
  availableAfter : ℤ
  frozenBefore : ℤ
  frozenAfter : ℤ
  status : TransactionStatus
deriving Repr, DecidableEq

/-- An `account_balances` row (scripts/init-mysql.sql). -/
structure BalanceRow where
  accountId : Nat
  currencyCode : String
  available : ℤ
  frozen : ℤ
  version : Nat
deriving Repr, DecidableEq

/-- A `consumer_offsets` row: (consumer group, topic, partition, offset). -/
structure OffsetRow where
  consumerGroup : String
  topic : String
  partition : Nat
  offset : Nat
deriving Repr, DecidableEq

/-- The relational state touched by a batch commit: `account_balances`,
`balance_transactions` and `consumer_offsets`. -/
structure DBState where
  balances : List BalanceRow
  transactions : List LedgerRow
  consumerOffsets : List OffsetRow
deriving Repr, DecidableEq

/-- Join/guard predicate of the set-based UPDATE in
`batchWriteBalanceUpdates` (step 5.1): the staging row matches on
(account, currency) and its deltas keep both components non-negative. -/
def updateMatches (r : BalanceRow) (t : TempRow) : Bool :=
  t.accountId == r.accountId && t.currencyCode == r.currencyCode &&
  decide (0 ≤ r.available + t.availableDelta) &&
  decide (0 ≤ r.frozen + t.frozenDelta)

/-- Step 5.1 of `batchWriteBalanceUpdates`: `UPDATE account_balances JOIN
temp_balance_updates ... WHERE ab.available + delta >= 0 AND ab.frozen +
delta >= 0`.  Each target row is updated at most once even when several
staging rows match (MySQL applies one joined row per target row; the first
match determinizes that choice). -/
def updateExisting (db : List BalanceRow) (updates : List TempRow) :
    List BalanceRow :=
  db.map (fun r =>
    match updates.find? (fun t => updateMatches r t) with
    | some t =>
        { r with available := r.available + t.availableDelta,
                 frozen := r.frozen + t.frozenDelta,
                 version := r.version + 1 }
    | none => r)

/-- Step 5.2 of `batchWriteBalanceUpdates`: `INSERT IGNORE` of the staging
rows having no (account, currency) match, guarded by `available_after >= 0
AND frozen_after >= 0`, inserting `version` 0; `IGNORE` keeps the first row
per key. -/
def insertMissing (db : List BalanceRow) (updates : List TempRow) :
    List BalanceRow :=
  match updates with
  | [] => db
  | t :: rest =>
      insertMissing
        (if db.any (fun r =>
              r.accountId == t.accountId && r.currencyCode == t.currencyCode)
         then db
         else if decide (0 ≤ t.availableAfter) && decide (0 ≤ t.frozenAfter)
         then db ++ [{ accountId := t.accountId,
                       currencyCode := t.currencyCode,
                       available := t.availableAfter,
                       frozen := t.frozenAfter,
                       version := 0 }]
         else db)
        rest

/-- The ledger row produced for a staging row by the bulk insert of step 6
(no `error_message` column is written). -/
def ledgerRowOfTemp (t : TempRow) : LedgerRow :=
  { accountId := t.accountId
    currencyCode := t.currencyCode
    transactionId := t.transactionId
    type := t.type
    amount := t.amount
    availableBefore := t.availableBefore
    availableAfter := t.availableAfter
    frozenBefore := t.frozenBefore
    frozenAfter := t.frozenAfter
    status := t.status
    errorMessage := none }

/-- Step 6 of `batchWriteBalanceUpdates`: bulk `INSERT INTO
balance_transactions ... ON DUPLICATE KEY UPDATE status = VALUES(status)`
(unique key: transaction_id). -/
def ledgerUpsert (ledger : List LedgerRow) (updates : List TempRow) :
    List LedgerRow :=
  match updates with
  | [] => ledger
  | t :: rest =>
      ledgerUpsert
        (if ledger.any (fun l => l.transactionId == t.transactionId)
         then ledger.map (fun l =>
                if l.transactionId == t.transactionId
                then { l with status := t.status } else l)
         else ledger ++ [ledgerRowOfTemp t])
        rest

/-- `MySQLBatchWriter.batchWriteBalanceUpdates` (src): one transaction of
staging insert, optional leader-check callback (step 4; `fence = none`
models no callback provided, `some b` a callback whose lock check returned
`b` — `false` makes the callback throw), balance update, insert-missing and
ledger upsert.  `dbError` models any statement failing with an
infrastructure error.  Any throw rolls the transaction back (DB unchanged)
and the returned flag is `false`; `consumer_offsets` is never touched. -/
def batchWriteBalanceUpdates (db : DBState) (updates : List TempRow)
    (fence : Option Bool) (dbError : Bool) : DBState × Bool :=
  if updates.isEmpty then (db, true)
  else if dbError then (db, false)
  else if fence = some false then (db, false)
  else
    ({ balances := insertMissing (updateExisting db.balances updates) updates,
       transactions := ledgerUpsert db.transactions updates,
       consumerOffsets := db.consumerOffsets }, true)

/-- In-memory state of the `LeaderElection` service plus the module-level
flags of src/services/leader-election.ts: `enabled` is the
`leaderElectionEnabled` flag set by `enableLeaderElection()`,
`instanceExists` whether `getLeaderElection()` was called, `isLeader` the
instance field. -/
structure LeaderState where
  consumerId : String
  isLeader : Bool
  enabled : Bool
  instanceExists : Bool
deriving Repr, DecidableEq

/-- `isLeaderElectionEnabled()` (src/services/leader-election.ts). -/
def isLeaderElectionEnabled (s : LeaderState) : Bool :=
  s.enabled && s.instanceExists && s.isLeader

/-- The `leader_locks` row (scripts/init-mysql.sql), expiry as an integer
timestamp. -/
structure LeaderLockRow where
  consumerId : String
  expiresAt : Int
deriving Repr, DecidableEq

/-- `LeaderElection.checkLockInTransaction`: the locking read `SELECT ...
WHERE id = 1 AND consumer_id = ? AND expires_at > NOW()` finds a row iff
the lease row exists, names this consumer and has not expired. -/
def checkLockInTransaction (selfId : String) (lockRow : Option LeaderLockRow)
    (now : Int) : Bool :=
  match lockRow with
  | some row => row.consumerId == selfId && decide (now < row.expiresAt)
  | none => false

/-- `LeaderElection.renewLock`: returns `false` without touching state when
not leader; otherwise the conditional UPDATE either renews
(`dbRenewSucceeded`) or, on zero affected rows, clears `isLeader`. -/
def renewLock (s : LeaderState) (dbRenewSucceeded : Bool) :
    LeaderState × Bool :=
  if s.isLeader = false then (s, false)
  else if dbRenewSucceeded then (s, true)
  else ({ s with isLeader := false }, false)

/-- The leader-check wiring of `BatchConsumer.processBatch` (step 3): a
fence callback is installed only when `isLeaderElectionEnabled()` holds;
when installed, the callback's outcome is the in-transaction lock check. -/
def processBatchFence (s : LeaderState) (lockRow : Option LeaderLockRow)
    (now : Int) : Option Bool :=
  if isLeaderElectionEnabled s
  then some (checkLockInTransaction s.consumerId lockRow now)
  else none

/-- `ErrorHandler`s non-retryable error names (src/utils/error-handler.ts). -/
def nonRetryableErrors : List String :=
  ["ValidationError", "AuthenticationError", "AuthorizationError",
   "InvalidFormatError"]

/-- `ErrorHandler.shouldRetry`: retry unless the count reached
`maxRetries` or the error constructor name is in the non-retryable list. -/
def shouldRetry (retryCount maxRetries : Nat) (errorName : String) : Bool :=
  if maxRetries ≤ retryCount then false
  else if nonRetryableErrors.contains errorName then false
  else true

/-- The update entry pushed by `BatchConsumer.processBatch` for a record,
combined with the delta computation of `batchWriteBalanceUpdates` step 2. -/
def tempRowOfOutcome (req : BalanceChangeRequest)
    (availableBefore availableAfter frozenBefore frozenAfter : ℤ)
    (status : TransactionStatus) : TempRow :=
  { accountId := req.accountId
    currencyCode := req.currencyCode
    availableDelta := availableAfter - availableBefore
    frozenDelta := frozenAfter - frozenBefore
    transactionId := req.transactionId
    type := req.type
    amount := req.amount
    availableBefore := availableBefore
    availableAfter := availableAfter
    frozenBefore := frozenBefore
    frozenAfter := frozenAfter
    status := status }

/-- Disposition of one record inside `BatchConsumer.processBatch` (step 2):
a returned result is pushed as an update entry (later a ledger row); a
thrown error goes to `ErrorHandler.handleError`, which either schedules a
retry (nothing recorded this batch) or, once retries are exhausted, sends
the record to the DLQ and pushes a zeroed FAILED entry. -/
inductive RecordDisposition where
  | recorded (row : TempRow)
  | retriedLater (newRetryCount : Nat)
  | deadLettered (row : TempRow)
deriving Repr, DecidableEq

/-- The per-record body of `BatchConsumer.processBatch`.  All errors thrown
by `BalanceService.updateBalance` are plain `Error` objects, so the error
constructor name seen by `shouldRetry` is always `"Error"`. -/
def processRecord (cacheEntry : Option Balance) (req : BalanceChangeRequest)
    (retryCount maxRetries : Nat) : RecordDisposition :=
  match updateBalance cacheEntry req with
  | UpdateOutcome.returned success aB aA fB fA _ _ _ =>
      RecordDisposition.recorded
        (tempRowOfOutcome req aB aA fB fA
          (if success then TransactionStatus.SUCCESS
           else TransactionStatus.FAILED))
  | UpdateOutcome.thrown _ _ =>
      if shouldRetry retryCount maxRetries "Error"
      then RecordDisposition.retriedLater (retryCount + 1)
      else RecordDisposition.deadLettered
        (tempRowOfOutcome req 0 0 0 0 TransactionStatus.FAILED)

/-- The filter of `BatchConsumer.deduplicateMessages`: keep the parsed
requests whose transaction-id has no `balance_transactions` row with
`status != INIT` (`processedTxIds` is the result of that query).  Nothing
else is dropped; in particular repeats inside the batch all pass. -/
def deduplicateRequests (requests : List BalanceChangeRequest)
    (processedTxIds : List String) : List BalanceChangeRequest :=
  requests.filter (fun r => !(processedTxIds.contains r.transactionId))

/-- The offsets resolved by the `eachBatch` handler of
`BatchConsumer.pollLoop`: `processBatch` swallows batch-write failures
(its catch logs and returns), after which every message offset of a
non-empty batch is resolved, regardless of the write outcome. -/
def eachBatchResolvedOffsets (offsets : List Nat) (_writeSucceeded : Bool) :
    List Nat :=
  if offsets.isEmpty then [] else offsets

/-- Where a starting consumer begins reading. -/
inductive StartMode where
  | fromBeginning
  | fromStoredOffset (offset : Nat)
deriving Repr, DecidableEq

/-- `BatchConsumer.start` subscribes with `fromBeginning: true` and never
consults the stored `consumer_offsets` table (`ConsumerOffsetManager` has
no caller in the consumer). -/
def consumerStartMode : StartMode := StartMode.fromBeginning

/-- `OutboxService.createBalanceChange` (src/services/outbox.ts): insert an
outbox row keyed by a freshly generated `eventId`; only a duplicate-entry
error on that unique `event_id` index is converted into the distinguished
`Duplicate event` error.  The idempotency index (`balance_transactions`) is
not consulted. -/
def createBalanceChange (existingEventIds : List String) (eventId : String)
    (req : BalanceChangeRequest) : Except String String :=
  if existingEventIds.contains eventId then
    Except.error ("Duplicate event: " ++ req.transactionId)
  else Except.ok eventId

/-- `String.includes` of the source, used on error messages by
`RESTServer.changeBalance`. -/
def messageIncludes (msg sub : String) : Bool :=
  (msg.splitOn sub).length != 1

/-- HTTP responses of `RESTServer.changeBalance`. -/
inductive RestResponse where
  | ok (transactionId eventId : String)
  | badRequest (msg : String)
  | conflict (msg : String)
  | serverError (msg : String)
deriving Repr, DecidableEq

/-- The `transactionTypeMap` of `RESTServer.changeBalance`. -/
def transactionTypeMap (typeCode : Nat) : Option TransactionType :=
  match typeCode with
  | 0 => some TransactionType.DEPOSIT
  | 1 => some TransactionType.WITHDRAW
  | 2 => some TransactionType.FREEZE
  | 3 => some TransactionType.UNFREEZE
  | 4 => some TransactionType.TRANSFER
  | _ => none

/-- `RESTServer.changeBalance` (src/api/rest/server.ts): the only request
validation is the falsiness check on the required fields (`!amount`
rejects 0 but lets any non-zero amount through, negative included) and the
type-code lookup; then the request is handed to the outbox, with a 409
only for errors whose message includes "Duplicate". -/
def changeBalance (existingEventIds : List String) (eventId : String)
    (transactionId : String) (accountId : Nat) (userId currencyCode : String)
    (typeCode : Nat) (amount : ℤ) : RestResponse :=
  if transactionId = "" ∨ accountId = 0 ∨ userId = "" ∨ currencyCode = ""
      ∨ amount = 0 then
    RestResponse.badRequest "Missing required fields"
  else
    match transactionTypeMap typeCode with
    | none => RestResponse.badRequest "Invalid transaction type"
    | some ty =>
        match createBalanceChange existingEventIds eventId
            { transactionId := transactionId, accountId := accountId,
              userId := userId, currencyCode := currencyCode,
              type := ty, amount := amount } with
        | Except.ok e => RestResponse.ok transactionId e
        | Except.error msg =>
            if messageIncludes msg "Duplicate" then RestResponse.conflict msg
            else RestResponse.serverError msg

/-- Non-negativity of an `account_balances` row. -/
def nonnegRow (r : BalanceRow) : Bool :=
  decide (0 ≤ r.available) && decide (0 ≤ r.frozen)

/-- Non-negativity of a cached balance. -/
def nonnegBalance (b : Balance) : Bool :=
  decide (0 ≤ b.available) && decide (0 ≤ b.frozen)

/-!  Theorems. -/

/-- Claim C1 (refuted, code bug): the fence check is not unconditional.
Worker A acquires the lease and enables leader election; a failed renewal
clears its in-memory `isLeader` flag while the lease row now names worker B
(unexpired at commit time, so an in-transaction check would return false).
Because `isLeaderElectionEnabled()` is false, `processBatch` installs no
fence callback, and the batch commit succeeds and mutates the balances —
instead of rolling back as the claim requires. -/
theorem batchCommit_without_fence_after_lease_loss :
    ((renewLock { consumerId := "worker-A", isLeader := true, enabled := true,
                  instanceExists := true } false).1.isLeader = false)
    ∧ (checkLockInTransaction "worker-A"
        (some { consumerId := "worker-B", expiresAt := 100 }) 50 = false)
    ∧ (processBatchFence
        (renewLock { consumerId := "worker-A", isLeader := true,
                     enabled := true, instanceExists := true } false).1
        (some { consumerId := "worker-B", expiresAt := 100 }) 50 = none)
    ∧ ((batchWriteBalanceUpdates
          { balances := [⟨1, "USDT", 100, 0, 1⟩], transactions := [],
            consumerOffsets := [] }
          [tempRowOfOutcome ⟨"t9", 1, "u1", "USDT", TransactionType.DEPOSIT, 5⟩
            100 105 0 0 TransactionStatus.SUCCESS]
          (processBatchFence
            (renewLock { consumerId := "worker-A", isLeader := true,
                         enabled := true, instanceExists := true } false).1
            (some { consumerId := "worker-B", expiresAt := 100 }) 50)
          false).2 = true)
    ∧ ((batchWriteBalanceUpdates
          { balances := [⟨1, "USDT", 100, 0, 1⟩], transactions := [],
            consumerOffsets := [] }
          [tempRowOfOutcome ⟨"t9", 1, "u1", "USDT", TransactionType.DEPOSIT, 5⟩
            100 105 0 0 TransactionStatus.SUCCESS]
          (processBatchFence
            (renewLock { consumerId := "worker-A", isLeader := true,
                         enabled := true, instanceExists := true } false).1
            (some { consumerId := "worker-B", expiresAt := 100 }) 50)
          false).1.balances = [⟨1, "USDT", 105, 0, 2⟩]) := by decide

/-- Counterexample to claim C2: a batch with two records carrying the same
fresh transaction-id is not collapsed to one record —
`deduplicateMessages` only filters against terminal DB rows, so both
records survive deduplication and both are processed. -/
theorem dedup_retains_inbatch_duplicates :
    (deduplicateRequests
        [⟨"t1", 1, "u1", "USDT", TransactionType.DEPOSIT, 100⟩,
         ⟨"t1", 1, "u1", "USDT", TransactionType.DEPOSIT, 100⟩] []
      = [⟨"t1", 1, "u1", "USDT", TransactionType.DEPOSIT, 100⟩,
         ⟨"t1", 1, "u1", "USDT", TransactionType.DEPOSIT, 100⟩])
    ∧ ¬ ((deduplicateRequests
        [⟨"t1", 1, "u1", "USDT", TransactionType.DEPOSIT, 100⟩,
         ⟨"t1", 1, "u1", "USDT", TransactionType.DEPOSIT, 100⟩] []).length
          = 1) := by decide

/-- Counterexample to claim C5: transaction "t1" was already accepted (its
outbox event "e1" exists and its ledger row is terminal), yet a second
identical mutate with freshly generated event id "e2" is answered with
success and the new event id — not with the distinguished Duplicate error.
`createBalanceChange` takes no idempotency-index input at all: only a
collision on the generated outbox event id can produce the Duplicate
error. -/
theorem duplicate_txid_accepted_at_mutate :
    (changeBalance ["e1"] "e2" "t1" 1 "u1" "USDT" 0 100
      = RestResponse.ok "t1" "e2")
    ∧ (createBalanceChange ["e1"] "e2"
        ⟨"t1", 1, "u1", "USDT", TransactionType.DEPOSIT, 100⟩
      = Except.ok "e2") := ⟨by decide, rfl⟩

/-- Claim C6 (refuted, code bug): a withdraw of 150 against available 100
throws from `updateBalance` (the `switch` throws before the `try` that
records failed rows), and `ErrorHandler.shouldRetry` treats the plain
`Error` as retryable, so the record is scheduled for retry — no failed
ledger row is recorded and the rejection is not terminal.  The same holds
for a non-deposit on an unknown balance. -/
theorem insufficient_funds_retried_not_terminal :
    (updateBalance (some ⟨1, "USDT", 100, 0, 5⟩)
        ⟨"t2", 1, "u1", "USDT", TransactionType.WITHDRAW, 150⟩
      = UpdateOutcome.thrown "Insufficient balance"
          (some ⟨1, "USDT", 100, 0, 5⟩))
    ∧ (shouldRetry 0 3 "Error" = true)
    ∧ (processRecord (some ⟨1, "USDT", 100, 0, 5⟩)
        ⟨"t2", 1, "u1", "USDT", TransactionType.WITHDRAW, 150⟩ 0 3
      = RecordDisposition.retriedLater 1)
    ∧ (processRecord none ⟨"t3", 2, "u2", "USDT", TransactionType.WITHDRAW, 10⟩
        0 3 = RecordDisposition.retriedLater 1) := by decide

/-- Counterexample to claim C7: a batch whose write fails — lease lost
(fence callback returns false) or a transient DB error — still has every
record offset resolved, because `processBatch` swallows the write error and
`eachBatch` then resolves all offsets of the non-empty batch. -/
theorem offsets_resolved_despite_lease_loss :
    ((batchWriteBalanceUpdates ⟨[⟨1, "USDT", 100, 0, 1⟩], [], []⟩
        [tempRowOfOutcome ⟨"t7", 1, "u1", "USDT", TransactionType.DEPOSIT, 5⟩
          100 105 0 0 TransactionStatus.SUCCESS]
        (some false) false).2 = false)
    ∧ ((batchWriteBalanceUpdates ⟨[⟨1, "USDT", 100, 0, 1⟩], [], []⟩
        [tempRowOfOutcome ⟨"t7", 1, "u1", "USDT", TransactionType.DEPOSIT, 5⟩
          100 105 0 0 TransactionStatus.SUCCESS]
        (some false) false).1 = ⟨[⟨1, "USDT", 100, 0, 1⟩], [], []⟩)
    ∧ ((batchWriteBalanceUpdates ⟨[⟨1, "USDT", 100, 0, 1⟩], [], []⟩
        [tempRowOfOutcome ⟨"t7", 1, "u1", "USDT", TransactionType.DEPOSIT, 5⟩
          100 105 0 0 TransactionStatus.SUCCESS]
        none true).2 = false)
    ∧ (eachBatchResolvedOffsets [7, 8] false = [7, 8]) := by decide

/-- Counterexample to claim C8: a successful, non-empty batch commit leaves
the stored `consumer_offsets` table exactly as it was (here: empty, so no
entry was advanced to the last record of the batch), and a starting
consumer subscribes from the beginning of the topic instead of reading the
committed offset and starting at offset + 1. -/
theorem commit_leaves_stored_offset_unchanged :
    ((batchWriteBalanceUpdates ⟨[⟨1, "USDT", 100, 0, 1⟩], [], []⟩
        [tempRowOfOutcome ⟨"t8", 1, "u1", "USDT", TransactionType.DEPOSIT, 5⟩
          100 105 0 0 TransactionStatus.SUCCESS]
        none false).2 = true)
    ∧ ((batchWriteBalanceUpdates ⟨[⟨1, "USDT", 100, 0, 1⟩], [], []⟩
        [tempRowOfOutcome ⟨"t8", 1, "u1", "USDT", TransactionType.DEPOSIT, 5⟩
          100 105 0 0 TransactionStatus.SUCCESS]
        none false).1.consumerOffsets = [])
    ∧ ¬ ((batchWriteBalanceUpdates ⟨[⟨1, "USDT", 100, 0, 1⟩], [], []⟩
        [tempRowOfOutcome ⟨"t8", 1, "u1", "USDT", TransactionType.DEPOSIT, 5⟩
          100 105 0 0 TransactionStatus.SUCCESS]
        none false).1.consumerOffsets
          = [⟨"balance-consumer-group", "balance-changes", 0, 0⟩])
    ∧ (consumerStartMode = StartMode.fromBeginning)
    ∧ ¬ (consumerStartMode = StartMode.fromStoredOffset 1) := by decide

/-- Counterexample to claim C9: the first deposit of 100 on an unknown
(account, currency) commits a balance row whose `version` is 0, not 1 —
the insert-missing branch of the batch writer hard-codes version 0. -/
theorem first_deposit_committed_version_not_one :
    ((batchWriteBalanceUpdates ⟨[], [], []⟩
        [tempRowOfOutcome ⟨"t1", 1, "u1", "USDT", TransactionType.DEPOSIT, 100⟩
          0 100 0 0 TransactionStatus.SUCCESS]
        none false).1.balances.map BalanceRow.version = [0])
    ∧ ¬ ((batchWriteBalanceUpdates ⟨[], [], []⟩
        [tempRowOfOutcome ⟨"t1", 1, "u1", "USDT", TransactionType.DEPOSIT, 100⟩
          0 100 0 0 TransactionStatus.SUCCESS]
        none false).1.balances.map BalanceRow.version = [1]) := by decide

/-- Claim C9 as amended: a first deposit of 100 on an unknown (account,
currency) succeeds by lazily creating the balance; the committed row has
available 100, frozen 0 and version 0 (the in-memory working set shows
version 1), and one success ledger row with before 0 and after 100 is
written. -/
theorem first_deposit_pipeline_behavior :
    (updateBalance none ⟨"t1", 1, "u1", "USDT", TransactionType.DEPOSIT, 100⟩
      = UpdateOutcome.returned true 0 100 0 0 none ⟨1, "USDT", 100, 0, 1⟩
          ⟨1, "USDT", "t1", TransactionType.DEPOSIT, 100, 0, 100, 0, 0,
           TransactionStatus.SUCCESS, none⟩)
    ∧ (batchWriteBalanceUpdates ⟨[], [], []⟩
        [tempRowOfOutcome ⟨"t1", 1, "u1", "USDT", TransactionType.DEPOSIT, 100⟩
          0 100 0 0 TransactionStatus.SUCCESS]
        none false
      = (⟨[⟨1, "USDT", 100, 0, 0⟩],
          [⟨1, "USDT", "t1", TransactionType.DEPOSIT, 100, 0, 100, 0, 0,
            TransactionStatus.SUCCESS, none⟩], []⟩, true)) := by decide

/-- Claim C10 (confirmed): the mutate surface performs no amount-positivity
validation.  A deposit of -5 passes the REST falsiness checks and is
accepted by the outbox, and the consumer applies it to an account with
available 100, successfully and without any error, leaving available 95 —
a strict decrease. -/
theorem negative_amount_deposit_accepted :
    (changeBalance [] "e1" "tn" 1 "u1" "USDT" 0 (-5)
      = RestResponse.ok "tn" "e1")
    ∧ (updateBalance (some ⟨1, "USDT", 100, 0, 7⟩)
        ⟨"tn", 1, "u1", "USDT", TransactionType.DEPOSIT, -5⟩
      = UpdateOutcome.returned true 100 95 0 0 none ⟨1, "USDT", 95, 0, 8⟩
          ⟨1, "USDT", "tn", TransactionType.DEPOSIT, -5, 100, 95, 0, 0,
           TransactionStatus.SUCCESS, none⟩)
    ∧ ((95 : ℤ) < 100) := by decide

/-- Claim C8 as amended: a batch commit transaction writes balances and
ledger rows only and never touches the stored `consumer_offsets` table
(offsets are advanced in Kafka via `resolveOffset` after processing), and
on start the consumer subscribes from the beginning of the topic rather
than reading the committed offset and starting at offset + 1. -/
theorem batch_commit_never_writes_offsets (db : DBState)
    (updates : List TempRow) (fence : Option Bool) (dbError : Bool) :
    (batchWriteBalanceUpdates db updates fence dbError).1.consumerOffsets
      = db.consumerOffsets
    ∧ consumerStartMode = StartMode.fromBeginning := by
  refine ⟨?_, rfl⟩
  unfold batchWriteBalanceUpdates
  split
  · rfl
  · split
    · rfl
    · split
      · rfl
      · rfl

/-- Claim C7 as amended: when the batch write fails — transient DB error or
lease lost inside the transaction — the transaction rolls back, leaving the
relational state unchanged; but `processBatch` swallows the failure, so the
offsets of the (non-empty) batch are still resolved and the records are not
re-processed. -/
theorem failed_batch_write_rolls_back_but_offsets_resolve
    (db : DBState) (updates : List TempRow) (fence : Option Bool)
    (dbError : Bool) (offsets : List Nat)
    (hfail : (batchWriteBalanceUpdates db updates fence dbError).2 = false)
    (hne : offsets.isEmpty = false) :
    (batchWriteBalanceUpdates db updates fence dbError).1 = db
    ∧ eachBatchResolvedOffsets offsets false = offsets := by
  constructor
  · unfold batchWriteBalanceUpdates at hfail ⊢
    split at hfail
    · simp at hfail
    · split at hfail
      · simp [*]
      · split at hfail
        · simp [*]
        · simp at hfail
  · unfold eachBatchResolvedOffsets
    simp [hne]

/-- Witness for the amended claim C7 at a concrete failed batch. -/
theorem failed_batch_write_rolls_back_but_offsets_resolve_witness :
    (batchWriteBalanceUpdates ⟨[], [], []⟩
        [tempRowOfOutcome ⟨"t7", 1, "u1", "USDT", TransactionType.DEPOSIT, 5⟩
          0 5 0 0 TransactionStatus.SUCCESS] none true).1 = ⟨[], [], []⟩
    ∧ eachBatchResolvedOffsets [7, 8] false = [7, 8] :=
  failed_batch_write_rolls_back_but_offsets_resolve ⟨[], [], []⟩
    [tempRowOfOutcome ⟨"t7", 1, "u1", "USDT", TransactionType.DEPOSIT, 5⟩
      0 5 0 0 TransactionStatus.SUCCESS] none true [7, 8]
    (by decide) (by decide)

/-- Claim C2 as amended: deduplication keeps exactly the records whose
transaction-id has no terminal ledger row — so a duplicate arriving after
its transaction-id became terminal is dropped (no further balance change,
still one ledger row) — but two records with the same fresh transaction-id
inside one batch are both retained rather than collapsed to one record.
Both are processed against the same pre-batch store snapshot (every
`getBalance` reloads from the DB, which the batch has not written yet), so
they push two identical update entries, and the commit still has the
claimed effect: the set-based UPDATE applies one delta per balance row, the
first-touch INSERT IGNORE inserts one row per key, and the ledger insert
upserts on the transaction-id key — one balance change and one terminal
ledger row, exactly as a single record would commit. -/
theorem dedup_drops_exactly_terminal_txids
    (requests : List BalanceChangeRequest) (processedTxIds : List String)
    (r : BalanceChangeRequest) (t1 t2 : TempRow)
    (hsame : t1.transactionId = t2.transactionId) :
    (r ∈ deduplicateRequests requests processedTxIds ↔
      (r ∈ requests ∧ processedTxIds.contains r.transactionId = false))
    ∧ deduplicateRequests [r, r] [] = [r, r]
    ∧ (ledgerUpsert [] [t1, t2]).length = 1
    ∧ (batchWriteBalanceUpdates ⟨[], [], []⟩
          [tempRowOfOutcome ⟨"t1", 1, "u1", "USDT", TransactionType.DEPOSIT, 100⟩
            0 100 0 0 TransactionStatus.SUCCESS,
           tempRowOfOutcome ⟨"t1", 1, "u1", "USDT", TransactionType.DEPOSIT, 100⟩
            0 100 0 0 TransactionStatus.SUCCESS] none false
        = batchWriteBalanceUpdates ⟨[], [], []⟩
          [tempRowOfOutcome ⟨"t1", 1, "u1", "USDT", TransactionType.DEPOSIT, 100⟩
            0 100 0 0 TransactionStatus.SUCCESS] none false)
    ∧ (batchWriteBalanceUpdates ⟨[⟨1, "USDT", 50, 0, 3⟩], [], []⟩
          [tempRowOfOutcome ⟨"t1", 1, "u1", "USDT", TransactionType.DEPOSIT, 100⟩
            50 150 0 0 TransactionStatus.SUCCESS,
           tempRowOfOutcome ⟨"t1", 1, "u1", "USDT", TransactionType.DEPOSIT, 100⟩
            50 150 0 0 TransactionStatus.SUCCESS] none false
        = batchWriteBalanceUpdates ⟨[⟨1, "USDT", 50, 0, 3⟩], [], []⟩
          [tempRowOfOutcome ⟨"t1", 1, "u1", "USDT", TransactionType.DEPOSIT, 100⟩
            50 150 0 0 TransactionStatus.SUCCESS] none false) := by
  refine ⟨?_, by simp [deduplicateRequests], ?_, by decide, by decide⟩
  · simp [deduplicateRequests, List.mem_filter]
  · simp [ledgerUpsert, ledgerRowOfTemp, hsame]

/-- Witness for the amended claim C2 at concrete inputs. -/
theorem dedup_drops_exactly_terminal_txids_witness :
    ((⟨"t1", 1, "u1", "USDT", TransactionType.DEPOSIT, 100⟩ :
        BalanceChangeRequest)
        ∈ deduplicateRequests
            [⟨"t1", 1, "u1", "USDT", TransactionType.DEPOSIT, 100⟩] ["t0"] ↔
      ((⟨"t1", 1, "u1", "USDT", TransactionType.DEPOSIT, 100⟩ :
          BalanceChangeRequest)
          ∈ [(⟨"t1", 1, "u1", "USDT", TransactionType.DEPOSIT, 100⟩ :
              BalanceChangeRequest)]
        ∧ (["t0"].contains "t1") = false))
    ∧ deduplicateRequests
        [⟨"t1", 1, "u1", "USDT", TransactionType.DEPOSIT, 100⟩,
         ⟨"t1", 1, "u1", "USDT", TransactionType.DEPOSIT, 100⟩] []
      = [⟨"t1", 1, "u1", "USDT", TransactionType.DEPOSIT, 100⟩,
         ⟨"t1", 1, "u1", "USDT", TransactionType.DEPOSIT, 100⟩]
    ∧ (ledgerUpsert []
        [tempRowOfOutcome ⟨"t1", 1, "u1", "USDT", TransactionType.DEPOSIT, 100⟩
          0 100 0 0 TransactionStatus.SUCCESS,
         tempRowOfOutcome ⟨"t1", 1, "u1", "USDT", TransactionType.DEPOSIT, 100⟩
          0 100 0 0 TransactionStatus.SUCCESS]).length = 1
    ∧ (batchWriteBalanceUpdates ⟨[], [], []⟩
          [tempRowOfOutcome ⟨"t1", 1, "u1", "USDT", TransactionType.DEPOSIT, 100⟩
            0 100 0 0 TransactionStatus.SUCCESS,
           tempRowOfOutcome ⟨"t1", 1, "u1", "USDT", TransactionType.DEPOSIT, 100⟩
            0 100 0 0 TransactionStatus.SUCCESS] none false
        = batchWriteBalanceUpdates ⟨[], [], []⟩
          [tempRowOfOutcome ⟨"t1", 1, "u1", "USDT", TransactionType.DEPOSIT, 100⟩
            0 100 0 0 TransactionStatus.SUCCESS] none false)
    ∧ (batchWriteBalanceUpdates ⟨[⟨1, "USDT", 50, 0, 3⟩], [], []⟩
          [tempRowOfOutcome ⟨"t1", 1, "u1", "USDT", TransactionType.DEPOSIT, 100⟩
            50 150 0 0 TransactionStatus.SUCCESS,
           tempRowOfOutcome ⟨"t1", 1, "u1", "USDT", TransactionType.DEPOSIT, 100⟩
            50 150 0 0 TransactionStatus.SUCCESS] none false
        = batchWriteBalanceUpdates ⟨[⟨1, "USDT", 50, 0, 3⟩], [], []⟩
          [tempRowOfOutcome ⟨"t1", 1, "u1", "USDT", TransactionType.DEPOSIT, 100⟩
            50 150 0 0 TransactionStatus.SUCCESS] none false) :=
  dedup_drops_exactly_terminal_txids
    [⟨"t1", 1, "u1", "USDT", TransactionType.DEPOSIT, 100⟩] ["t0"]
    ⟨"t1", 1, "u1", "USDT", TransactionType.DEPOSIT, 100⟩
    (tempRowOfOutcome ⟨"t1", 1, "u1", "USDT", TransactionType.DEPOSIT, 100⟩
      0 100 0 0 TransactionStatus.SUCCESS)
    (tempRowOfOutcome ⟨"t1", 1, "u1", "USDT", TransactionType.DEPOSIT, 100⟩
      0 100 0 0 TransactionStatus.SUCCESS)
    rfl

/-- Claim C5 as amended: the mutate surface does not consult the
idempotency index — a repeated transaction-id is accepted again with a
freshly generated event id (`Duplicate` can only arise from a collision on
the generated outbox event id); the balance and ledger nevertheless stay
unchanged, because the consumer drops any record whose transaction-id
already has a terminal ledger row and an all-duplicates batch is never
written. -/
theorem mutate_ignores_idempotency_index (existingEventIds : List String)
    (eventId : String) (req : BalanceChangeRequest) (db : DBState)
    (fence : Option Bool) (dbError : Bool)
    (hfresh : existingEventIds.contains eventId = false) :
    createBalanceChange existingEventIds eventId req = Except.ok eventId
    ∧ deduplicateRequests [req] [req.transactionId] = []
    ∧ (batchWriteBalanceUpdates db [] fence dbError).1 = db := by
  refine ⟨?_, ?_, rfl⟩
  · have hmem : eventId ∉ existingEventIds := by simpa using hfresh
    simp [createBalanceChange, hmem]
  · simp [deduplicateRequests]

/-- Witness for the amended claim C5 at a concrete repeated request. -/
theorem mutate_ignores_idempotency_index_witness :
    createBalanceChange ["e1"] "e2"
        ⟨"t1", 1, "u1", "USDT", TransactionType.DEPOSIT, 100⟩
      = Except.ok "e2"
    ∧ deduplicateRequests
        [⟨"t1", 1, "u1", "USDT", TransactionType.DEPOSIT, 100⟩] ["t1"] = []
    ∧ (batchWriteBalanceUpdates ⟨[], [], []⟩ [] none false).1 = ⟨[], [], []⟩ :=
  mutate_ignores_idempotency_index ["e1"] "e2"
    ⟨"t1", 1, "u1", "USDT", TransactionType.DEPOSIT, 100⟩
    ⟨[], [], []⟩ none false (by decide)

/-- The guarded join-update of the batch writer maps non-negative rows to
non-negative rows: an updated row passed the WHERE guard, an untouched row
is unchanged. -/
theorem updateExisting_nonneg (db : List BalanceRow) (updates : List TempRow)
    (h : ∀ r ∈ db, 0 ≤ r.available ∧ 0 ≤ r.frozen) :
    ∀ r ∈ updateExisting db updates, 0 ≤ r.available ∧ 0 ≤ r.frozen := by
  intro r hr
  unfold updateExisting at hr
  rw [List.mem_map] at hr
  obtain ⟨r0, hr0, rfl⟩ := hr
  cases hfind : updates.find? (fun t => updateMatches r0 t) with
  | none => simpa [hfind] using h r0 hr0
  | some t =>
      have hp := List.find?_some hfind
      unfold updateMatches at hp
      simp only [Bool.and_eq_true, decide_eq_true_eq] at hp
      simp only [hfind]
      exact ⟨hp.1.2, hp.2⟩

/-- The guarded insert-missing of the batch writer only adds rows whose
after-state components are non-negative. -/
theorem insertMissing_nonneg (updates : List TempRow) :
    ∀ db : List BalanceRow, (∀ r ∈ db, 0 ≤ r.available ∧ 0 ≤ r.frozen) →
      ∀ r ∈ insertMissing db updates, 0 ≤ r.available ∧ 0 ≤ r.frozen := by
  induction updates with
  | nil =>
      intro db h r hr
      exact h r (by simpa [insertMissing] using hr)
  | cons t rest ih =>
      intro db h r hr
      simp only [insertMissing] at hr
      refine ih _ ?_ r hr
      intro r' hr'
      by_cases hdup : (db.any (fun rr =>
          rr.accountId == t.accountId && rr.currencyCode == t.currencyCode))
          = true
      · rw [if_pos hdup] at hr'
        exact h r' hr'
      · rw [if_neg hdup] at hr'
        by_cases hguard : (decide (0 ≤ t.availableAfter) &&
            decide (0 ≤ t.frozenAfter)) = true
        · rw [if_pos hguard] at hr'
          rcases List.mem_append.mp hr' with h1 | h1
          · exact h r' h1
          · simp only [List.mem_singleton] at h1
            subst h1
            simp only [Bool.and_eq_true, decide_eq_true_eq] at hguard
            exact ⟨hguard.1, hguard.2⟩
        · rw [if_neg hguard] at hr'
          exact h r' hr'

/-- Claim C3 (confirmed): both commit paths keep committed balances
non-negative — the batch-write transaction (its UPDATE is guarded by
`available + delta >= 0 AND frozen + delta >= 0` and its INSERT by
`available_after >= 0 AND frozen_after >= 0`) maps a store of non-negative
rows to a store of non-negative rows, for every batch and every fence or
error outcome, and a successful `BalanceCache.update` always returns a
non-negative balance. -/
theorem committed_balances_nonneg (db : DBState) (updates : List TempRow)
    (fence : Option Bool) (dbError : Bool) (entry : Option Balance)
    (d1 d2 : ℤ) (nb : Balance)
    (hdb : db.balances.all nonnegRow = true)
    (hcache : cacheUpdate entry d1 d2 = Except.ok nb) :
    ((batchWriteBalanceUpdates db updates fence dbError).1.balances.all
        nonnegRow = true)
    ∧ nonnegBalance nb = true := by
  constructor
  · rw [List.all_eq_true] at hdb ⊢
    have hdb' : ∀ r ∈ db.balances, 0 ≤ r.available ∧ 0 ≤ r.frozen := by
      intro r hr
      simpa [nonnegRow] using hdb r hr
    intro r hr
    suffices hs : 0 ≤ r.available ∧ 0 ≤ r.frozen by
      simpa [nonnegRow] using hs
    unfold batchWriteBalanceUpdates at hr
    split at hr
    · exact hdb' r hr
    · split at hr
      · exact hdb' r hr
      · split at hr
        · exact hdb' r hr
        · exact insertMissing_nonneg updates _
            (updateExisting_nonneg db.balances updates hdb') r hr
  · cases entry with
    | none => exact absurd hcache (by simp [cacheUpdate])
    | some current =>
        by_cases h1 : current.available + d1 < 0
        · simp [cacheUpdate, h1] at hcache
        · by_cases h2 : current.frozen + d2 < 0
          · simp [cacheUpdate, h1, h2] at hcache
          · simp only [cacheUpdate, if_neg h1, if_neg h2,
              Except.ok.injEq] at hcache
            subst hcache
            simp only [nonnegBalance, Bool.and_eq_true, decide_eq_true_eq]
            exact ⟨not_lt.mp h1, not_lt.mp h2⟩

/-- Witness for claim C3 at a concrete batch and cache update. -/
theorem committed_balances_nonneg_witness :
    ((batchWriteBalanceUpdates ⟨[⟨1, "USDT", 0, 0, 0⟩], [], []⟩
        [tempRowOfOutcome ⟨"t1", 1, "u1", "USDT", TransactionType.DEPOSIT, 100⟩
          0 100 0 0 TransactionStatus.SUCCESS] none false).1.balances.all
        nonnegRow = true)
    ∧ nonnegBalance ⟨1, "USDT", 6, 5, 1⟩ = true :=
  committed_balances_nonneg ⟨[⟨1, "USDT", 0, 0, 0⟩], [], []⟩
    [tempRowOfOutcome ⟨"t1", 1, "u1", "USDT", TransactionType.DEPOSIT, 100⟩
      0 100 0 0 TransactionStatus.SUCCESS] none false
    (some ⟨1, "USDT", 5, 5, 0⟩) 1 0 ⟨1, "USDT", 6, 5, 1⟩
    (by decide) rfl

/-- Claim C4 (confirmed): on an existing (non-negative) balance and for
every positive amount `q`: deposit adds `q` to available leaving frozen
unchanged (never rejected); withdraw subtracts `q` from available (frozen
unchanged) exactly when `q ≤ available` and is rejected exactly when the
result would be negative; freeze moves `q` from available to frozen
exactly when `q ≤ available` and is rejected exactly when the resulting
available would be negative; unfreeze moves `q` from frozen to available
exactly when `q ≤ frozen` and is rejected exactly when the resulting
frozen would be negative; on every rejection the balance is unchanged (the
throw happens before any cache write). -/
theorem updateBalance_kind_semantics (b : Balance) (q : ℤ)
    (hav : 0 ≤ b.available) (hfr : 0 ≤ b.frozen) (hq : 0 < q) :
    (updateBalance (some b)
        ⟨"t", b.accountId, "u", b.currencyCode, TransactionType.DEPOSIT, q⟩
      = UpdateOutcome.returned true b.available (b.available + q) b.frozen
          b.frozen none
          { b with available := b.available + q, version := b.version + 1 }
          (mkLedgerRow
            ⟨"t", b.accountId, "u", b.currencyCode, TransactionType.DEPOSIT, q⟩
            b.available (b.available + q) b.frozen b.frozen
            TransactionStatus.SUCCESS none))
    ∧ ((q ≤ b.available →
        updateBalance (some b)
          ⟨"t", b.accountId, "u", b.currencyCode, TransactionType.WITHDRAW, q⟩
        = UpdateOutcome.returned true b.available (b.available - q) b.frozen
            b.frozen none
            { b with available := b.available - q, version := b.version + 1 }
            (mkLedgerRow
              ⟨"t", b.accountId, "u", b.currencyCode,
                TransactionType.WITHDRAW, q⟩
              b.available (b.available - q) b.frozen b.frozen
              TransactionStatus.SUCCESS none))
      ∧ (b.available < q →
        updateBalance (some b)
          ⟨"t", b.accountId, "u", b.currencyCode, TransactionType.WITHDRAW, q⟩
        = UpdateOutcome.thrown "Insufficient balance" (some b)))
    ∧ ((q ≤ b.available →
        updateBalance (some b)
          ⟨"t", b.accountId, "u", b.currencyCode, TransactionType.FREEZE, q⟩
        = UpdateOutcome.returned true b.available (b.available - q) b.frozen
            (b.frozen + q) none
            { b with available := b.available - q, frozen := b.frozen + q,
                     version := b.version + 1 }
            (mkLedgerRow
              ⟨"t", b.accountId, "u", b.currencyCode, TransactionType.FREEZE, q⟩
              b.available (b.available - q) b.frozen (b.frozen + q)
              TransactionStatus.SUCCESS none))
      ∧ (b.available < q →
        updateBalance (some b)
          ⟨"t", b.accountId, "u", b.currencyCode, TransactionType.FREEZE, q⟩
        = UpdateOutcome.thrown "Insufficient balance to freeze" (some b)))
    ∧ ((q ≤ b.frozen →
        updateBalance (some b)
          ⟨"t", b.accountId, "u", b.currencyCode, TransactionType.UNFREEZE, q⟩
        = UpdateOutcome.returned true b.available (b.available + q) b.frozen
            (b.frozen - q) none
            { b with available := b.available + q, frozen := b.frozen - q,
                     version := b.version + 1 }
            (mkLedgerRow
              ⟨"t", b.accountId, "u", b.currencyCode,
                TransactionType.UNFREEZE, q⟩
              b.available (b.available + q) b.frozen (b.frozen - q)
              TransactionStatus.SUCCESS none))
      ∧ (b.frozen < q →
        updateBalance (some b)
          ⟨"t", b.accountId, "u", b.currencyCode, TransactionType.UNFREEZE, q⟩
        = UpdateOutcome.thrown "Insufficient frozen balance" (some b))) := by
  have hd2 : ¬ (b.frozen < 0) := by omega
  refine ⟨?_, ⟨?_, ?_⟩, ⟨?_, ?_⟩, ⟨?_, ?_⟩⟩
  · have hd1 : ¬ (b.available + q < 0) := by omega
    simp [updateBalance, updateBalanceOn, computeNewBalance, cacheUpdate,
      mkLedgerRow, hd1, hd2]
  · intro h
    have hw1 : ¬ (b.available - q < 0) := by omega
    have hw1' : ¬ b.available < q := by omega
    simp [updateBalance, updateBalanceOn, computeNewBalance, cacheUpdate,
      mkLedgerRow, hw1, hd2, hw1', sub_eq_add_neg]
  · intro h
    have hw2 : b.available - q < 0 := by omega
    simp [updateBalance, updateBalanceOn, computeNewBalance, hw2]
  · intro h
    have hw1 : ¬ (b.available - q < 0) := by omega
    have hw1' : ¬ b.available < q := by omega
    have hf1 : ¬ (b.frozen + q < 0) := by omega
    simp [updateBalance, updateBalanceOn, computeNewBalance, cacheUpdate,
      mkLedgerRow, hw1, hf1, hw1', sub_eq_add_neg]
  · intro h
    have hw2 : b.available - q < 0 := by omega
    simp [updateBalance, updateBalanceOn, computeNewBalance, hw2]
  · intro h
    have hd1 : ¬ (b.available + q < 0) := by omega
    have hu1 : ¬ (b.frozen - q < 0) := by omega
    have hu1' : ¬ b.frozen < q := by omega
    simp [updateBalance, updateBalanceOn, computeNewBalance, cacheUpdate,
      mkLedgerRow, hd1, hu1, hu1', sub_eq_add_neg]
  · intro h
    have hu2 : b.frozen - q < 0 := by omega
    simp [updateBalance, updateBalanceOn, computeNewBalance, hu2]

/-- Witness for claim C4: the theorem applied to the balance (100, 40) at
amount 30 (all four success branches non-vacuous) and at amount 500 (all
three rejection branches non-vacuous). -/
theorem updateBalance_kind_semantics_witness :
    ((updateBalance (some ⟨1, "USDT", 100, 40, 3⟩)
        ⟨"t", 1, "u", "USDT", TransactionType.DEPOSIT, 30⟩
      = UpdateOutcome.returned true 100 130 40 40 none ⟨1, "USDT", 130, 40, 4⟩
          (mkLedgerRow ⟨"t", 1, "u", "USDT", TransactionType.DEPOSIT, 30⟩
            100 130 40 40 TransactionStatus.SUCCESS none))
    ∧ (((30 : ℤ) ≤ 100 →
        updateBalance (some ⟨1, "USDT", 100, 40, 3⟩)
          ⟨"t", 1, "u", "USDT", TransactionType.WITHDRAW, 30⟩
        = UpdateOutcome.returned true 100 70 40 40 none ⟨1, "USDT", 70, 40, 4⟩
            (mkLedgerRow ⟨"t", 1, "u", "USDT", TransactionType.WITHDRAW, 30⟩
              100 70 40 40 TransactionStatus.SUCCESS none))
      ∧ ((100 : ℤ) < 30 →
        updateBalance (some ⟨1, "USDT", 100, 40, 3⟩)
          ⟨"t", 1, "u", "USDT", TransactionType.WITHDRAW, 30⟩
        = UpdateOutcome.thrown "Insufficient balance"
            (some ⟨1, "USDT", 100, 40, 3⟩)))
    ∧ (((30 : ℤ) ≤ 100 →
        updateBalance (some ⟨1, "USDT", 100, 40, 3⟩)
          ⟨"t", 1, "u", "USDT", TransactionType.FREEZE, 30⟩
        = UpdateOutcome.returned true 100 70 40 70 none ⟨1, "USDT", 70, 70, 4⟩
            (mkLedgerRow ⟨"t", 1, "u", "USDT", TransactionType.FREEZE, 30⟩
              100 70 40 70 TransactionStatus.SUCCESS none))
      ∧ ((100 : ℤ) < 30 →
        updateBalance (some ⟨1, "USDT", 100, 40, 3⟩)
          ⟨"t", 1, "u", "USDT", TransactionType.FREEZE, 30⟩
        = UpdateOutcome.thrown "Insufficient balance to freeze"
            (some ⟨1, "USDT", 100, 40, 3⟩)))
    ∧ (((30 : ℤ) ≤ 40 →
        updateBalance (some ⟨1, "USDT", 100, 40, 3⟩)
          ⟨"t", 1, "u", "USDT", TransactionType.UNFREEZE, 30⟩
        = UpdateOutcome.returned true 100 130 40 10 none
            ⟨1, "USDT", 130, 10, 4⟩
            (mkLedgerRow ⟨"t", 1, "u", "USDT", TransactionType.UNFREEZE, 30⟩
              100 130 40 10 TransactionStatus.SUCCESS none))
      ∧ ((40 : ℤ) < 30 →
        updateBalance (some ⟨1, "USDT", 100, 40, 3⟩)
          ⟨"t", 1, "u", "USDT", TransactionType.UNFREEZE, 30⟩
        = UpdateOutcome.thrown "Insufficient frozen balance"
            (some ⟨1, "USDT", 100, 40, 3⟩))))
    ∧ ((updateBalance (some ⟨1, "USDT", 100, 40, 3⟩)
        ⟨"t", 1, "u", "USDT", TransactionType.DEPOSIT, 500⟩
      = UpdateOutcome.returned true 100 600 40 40 none ⟨1, "USDT", 600, 40, 4⟩
          (mkLedgerRow ⟨"t", 1, "u", "USDT", TransactionType.DEPOSIT, 500⟩
            100 600 40 40 TransactionStatus.SUCCESS none))
    ∧ (((500 : ℤ) ≤ 100 →
        updateBalance (some ⟨1, "USDT", 100, 40, 3⟩)
          ⟨"t", 1, "u", "USDT", TransactionType.WITHDRAW, 500⟩
        = UpdateOutcome.returned true 100 (-400) 40 40 none
            ⟨1, "USDT", -400, 40, 4⟩
            (mkLedgerRow ⟨"t", 1, "u", "USDT", TransactionType.WITHDRAW, 500⟩
              100 (-400) 40 40 TransactionStatus.SUCCESS none))
      ∧ ((100 : ℤ) < 500 →
        updateBalance (some ⟨1, "USDT", 100, 40, 3⟩)
          ⟨"t", 1, "u", "USDT", TransactionType.WITHDRAW, 500⟩
        = UpdateOutcome.thrown "Insufficient balance"
            (some ⟨1, "USDT", 100, 40, 3⟩)))
    ∧ (((500 : ℤ) ≤ 100 →
        updateBalance (some ⟨1, "USDT", 100, 40, 3⟩)
          ⟨"t", 1, "u", "USDT", TransactionType.FREEZE, 500⟩
        = UpdateOutcome.returned true 100 (-400) 40 540 none
            ⟨1, "USDT", -400, 540, 4⟩
            (mkLedgerRow ⟨"t", 1, "u", "USDT", TransactionType.FREEZE, 500⟩
              100 (-400) 40 540 TransactionStatus.SUCCESS none))
      ∧ ((100 : ℤ) < 500 →
        updateBalance (some ⟨1, "USDT", 100, 40, 3⟩)
          ⟨"t", 1, "u", "USDT", TransactionType.FREEZE, 500⟩
        = UpdateOutcome.thrown "Insufficient balance to freeze"
            (some ⟨1, "USDT", 100, 40, 3⟩)))
    ∧ (((500 : ℤ) ≤ 40 →
        updateBalance (some ⟨1, "USDT", 100, 40, 3⟩)
          ⟨"t", 1, "u", "USDT", TransactionType.UNFREEZE, 500⟩
        = UpdateOutcome.returned true 100 600 40 (-460) none
            ⟨1, "USDT", 600, -460, 4⟩
            (mkLedgerRow ⟨"t", 1, "u", "USDT", TransactionType.UNFREEZE, 500⟩
              100 600 40 (-460) TransactionStatus.SUCCESS none))
      ∧ ((40 : ℤ) < 500 →
        updateBalance (some ⟨1, "USDT", 100, 40, 3⟩)
          ⟨"t", 1, "u", "USDT", TransactionType.UNFREEZE, 500⟩
        = UpdateOutcome.thrown "Insufficient frozen balance"
            (some ⟨1, "USDT", 100, 40, 3⟩)))) :=
  ⟨updateBalance_kind_semantics ⟨1, "USDT", 100, 40, 3⟩ 30
      (by decide) (by decide) (by decide),
   updateBalance_kind_semantics ⟨1, "USDT", 100, 40, 3⟩ 500
      (by decide) (by decide) (by decide)⟩

end BalanceSystem
